import Mathlib

/-
Verification of the automated-news-alert core against its specification.

The development shallowly embeds the TypeScript sources:
  src/domain/entities.ts        (NewsItem, CrawlResult, NotificationResult)
  src/domain/services.ts        (NewsMonitoringService.monitorNews)
  src/infrastructure/repositories.ts (JsonNewsRepository)
  src/infrastructure/services.ts     (WebCrawlerService, EmailNotificationService)

Conventions of the embedding:
  - JS Date values are modelled as natural numbers (milliseconds since epoch);
    only their ordering and equality are used by the code.
  - The cache directory is modelled as an explicit file-system record
    (CacheFs).  The JSON layer is abstracted: a file holds either a parse
    error or the parsed snapshot (an association list in JS-object
    insertion order), mirroring the fact that JSON.parse either throws
    (caught, yielding an empty map) or returns the stored mapping.
  - Outcomes of external effects (whether a write throws, whether the SMTP
    send succeeds, the OS-reported file size) are explicit inputs.
  - Machine words inside MD5 are naturals reduced mod 2^32.
-/

namespace NewsAlert

/-! ## MD5 (node `createHash('md5').update(content, 'utf8').digest('hex')`)

The id of a news item is the MD5 digest of `title + link`
(src/infrastructure/services.ts, entities section, `NewsItem.create`).
We embed the full MD5 algorithm over UTF-8 bytes so that the id function
is executable. -/

def m32 : Nat := 2 ^ 32

def add32 (a b : Nat) : Nat := (a + b) % m32

def not32 (a : Nat) : Nat := 0xffffffff ^^^ (a % m32)

def rotl32 (x s : Nat) : Nat :=
  let y := x % m32
  ((y <<< s) % m32) ||| (y >>> (32 - s))

/-- Standard MD5 per-round additive constants (floor(abs(sin(i+1)) * 2^32)). -/
def md5K : List Nat :=
  [0xd76aa478, 0xe8c7b756, 0x242070db, 0xc1bdceee,
   0xf57c0faf, 0x4787c62a, 0xa8304613, 0xfd469501,
   0x698098d8, 0x8b44f7af, 0xffff5bb1, 0x895cd7be,
   0x6b901122, 0xfd987193, 0xa679438e, 0x49b40821,
   0xf61e2562, 0xc040b340, 0x265e5a51, 0xe9b6c7aa,
   0xd62f105d, 0x02441453, 0xd8a1e681, 0xe7d3fbc8,
   0x21e1cde6, 0xc33707d6, 0xf4d50d87, 0x455a14ed,
   0xa9e3e905, 0xfcefa3f8, 0x676f02d9, 0x8d2a4c8a,
   0xfffa3942, 0x8771f681, 0x6d9d6122, 0xfde5380c,
   0xa4beea44, 0x4bdecfa9, 0xf6bb4b60, 0xbebfbc70,
   0x289b7ec6, 0xeaa127fa, 0xd4ef3085, 0x04881d05,
   0xd9d4d039, 0xe6db99e5, 0x1fa27cf8, 0xc4ac5665,
   0xf4292244, 0x432aff97, 0xab9423a7, 0xfc93a039,
   0x655b59c3, 0x8f0ccc92, 0xffeff47d, 0x85845dd1,
   0x6fa87e4f, 0xfe2ce6e0, 0xa3014314, 0x4e0811a1,
   0xf7537e82, 0xbd3af235, 0x2ad7d2bb, 0xeb86d391]

/-- Standard MD5 per-round left-rotation amounts. -/
def md5S : List Nat :=
  [7, 12, 17, 22, 7, 12, 17, 22, 7, 12, 17, 22, 7, 12, 17, 22,
   5, 9, 14, 20, 5, 9, 14, 20, 5, 9, 14, 20, 5, 9, 14, 20,
   4, 11, 16, 23, 4, 11, 16, 23, 4, 11, 16, 23, 4, 11, 16, 23,
   6, 10, 15, 21, 6, 10, 15, 21, 6, 10, 15, 21, 6, 10, 15, 21]

/-- Round function and message-word index for round i. -/
def md5FG (i b c d : Nat) : Nat × Nat :=
  if i < 16 then ((b &&& c) ||| (not32 b &&& d), i)
  else if i < 32 then ((d &&& b) ||| (not32 d &&& c), (5 * i + 1) % 16)
  else if i < 48 then (b ^^^ c ^^^ d, (3 * i + 5) % 16)
  else (c ^^^ (b ||| not32 d), (7 * i) % 16)

structure MD5State where
  a : Nat
  b : Nat
  c : Nat
  d : Nat
deriving Repr, DecidableEq

def md5Step (msg : List Nat) (st : MD5State) (i : Nat) : MD5State :=
  let fg := md5FG i st.b st.c st.d
  let f := add32 (add32 (add32 fg.1 st.a) (md5K.getD i 0)) (msg.getD fg.2 0)
  ⟨st.d, add32 st.b (rotl32 f (md5S.getD i 0)), st.b, st.c⟩

/-- Little-endian 32-bit words of a 64-byte block. -/
def md5Words (block : List Nat) : List Nat :=
  (List.range 16).map (fun j =>
    block.getD (4 * j) 0 |||
    ((block.getD (4 * j + 1) 0) <<< 8) |||
    ((block.getD (4 * j + 2) 0) <<< 16) |||
    ((block.getD (4 * j + 3) 0) <<< 24))

def md5Compress (st : MD5State) (block : List Nat) : MD5State :=
  let msg := md5Words block
  let e := (List.range 64).foldl (md5Step msg) st
  ⟨add32 st.a e.a, add32 st.b e.b, add32 st.c e.c, add32 st.d e.d⟩

/-- Append 0x80, zero padding to 56 mod 64, and the 64-bit little-endian bit length. -/
def md5Pad (bytes : List Nat) : List Nat :=
  let n := bytes.length
  let zeros := (120 - ((n + 1) % 64)) % 64
  let bitLen := (n * 8) % (2 ^ 64)
  bytes ++ 0x80 :: List.replicate zeros 0 ++
    (List.range 8).map (fun k => (bitLen >>> (8 * k)) % 256)

def chunks64Aux : Nat → List Nat → List (List Nat)
  | 0, _ => []
  | _, [] => []
  | fuel + 1, x :: xs => (x :: xs).take 64 :: chunks64Aux fuel ((x :: xs).drop 64)

/-- Split a byte list into 64-byte blocks.  The fuel argument (the list
length, which always suffices) keeps the recursion structural so that the
definition reduces inside the kernel. -/
def chunks64 (l : List Nat) : List (List Nat) := chunks64Aux l.length l

def wordLE (w : Nat) : List Nat :=
  [w % 256, (w >>> 8) % 256, (w >>> 16) % 256, (w >>> 24) % 256]

def md5Bytes (bytes : List Nat) : List Nat :=
  let st := (chunks64 (md5Pad bytes)).foldl md5Compress
    ⟨0x67452301, 0xefcdab89, 0x98badcfe, 0x10325476⟩
  wordLE st.a ++ wordLE st.b ++ wordLE st.c ++ wordLE st.d

def hexDigitChar (n : Nat) : Char :=
  "0123456789abcdef".data.getD n '0'

def byteHexChars (b : Nat) : List Char :=
  [hexDigitChar (b / 16), hexDigitChar (b % 16)]

def bytesToHex (bs : List Nat) : String :=
  String.mk (bs.flatMap byteHexChars)

/-- UTF-8 encoding of one character, as byte values. -/
def charUtf8 (c : Char) : List Nat :=
  let n := c.toNat
  if n < 0x80 then [n]
  else if n < 0x800 then
    [0xc0 ||| (n >>> 6), 0x80 ||| (n &&& 0x3f)]
  else if n < 0x10000 then
    [0xe0 ||| (n >>> 12), 0x80 ||| ((n >>> 6) &&& 0x3f), 0x80 ||| (n &&& 0x3f)]
  else
    [0xf0 ||| (n >>> 18), 0x80 ||| ((n >>> 12) &&& 0x3f),
     0x80 ||| ((n >>> 6) &&& 0x3f), 0x80 ||| (n &&& 0x3f)]

def utf8Bytes (s : String) : List Nat := s.data.flatMap charUtf8

/-- MD5 digest of a string's UTF-8 bytes, rendered as 32 lowercase hex chars. -/
def md5Hex (s : String) : String := bytesToHex (md5Bytes (utf8Bytes s))

/-! ## Domain entities (src/domain/entities.ts) -/

/-- JS String.prototype.substring(0, n): the first n code units.  The
embedding works at character granularity (the contents handled by the
program are BMP text, one code unit per character). -/
def jsSubstringTo (s : String) (n : Nat) : String := String.mk (s.data.take n)

/-- Whitespace stripped by String.prototype.trim (the ASCII part; the
Unicode space characters behave the same for this program). -/
def isJsWhitespace (c : Char) : Bool :=
  c == ' ' || c == '\t' || c == '\n' || c == '\r'

/-- JS String.prototype.trim. -/
def jsTrim (s : String) : String :=
  String.mk (((s.data.dropWhile isJsWhitespace).reverse.dropWhile
    isJsWhitespace).reverse)

/-- JS String.prototype.toLowerCase (ASCII case folding; the strings the
program lowercases are ASCII). -/
def jsToLowerCase (s : String) : String := String.mk (s.data.map Char.toLower)

structure NewsItem where
  id : String
  title : String
  link : String
  date : Option String
  contentPreview : String
  crawledAt : Nat
deriving Repr, DecidableEq

/-- NewsItem constructor: validates that id, title and link are non-blank
(`!x || x.trim().length === 0`; for a string the first disjunct is
subsumed by the second) and truncates contentPreview with
`substring(0, 200)`.  A JS `throw` is an `Except.error`. -/
def NewsItem.make (id title link : String) (date : Option String)
    (contentPreview : String) (crawledAt : Nat) : Except String NewsItem :=
  if (jsTrim id).length = 0 then .error "NewsItem ID cannot be empty"
  else if (jsTrim title).length = 0 then .error "NewsItem title cannot be empty"
  else if (jsTrim link).length = 0 then .error "NewsItem link cannot be empty"
  else .ok ⟨id, title, link, date, jsSubstringTo contentPreview 200, crawledAt⟩

/-- NewsItem.create: id is the MD5 hex digest of `title + link`; crawledAt
is the ambient clock (`new Date()`), passed explicitly. -/
def NewsItem.create (title link : String) (date : Option String)
    (contentPreview : String) (now : Nat) : Except String NewsItem :=
  NewsItem.make (md5Hex (title ++ link)) title link date contentPreview now

structure CrawlResult where
  success : Bool
  items : List NewsItem
  newItems : List NewsItem
  errors : List String
  executionTime : Nat
  timestamp : Nat
  isFirstRun : Bool
deriving Repr, DecidableEq

/-- Fields of NotificationResult consumed by the orchestrator. -/
structure NotificationOutcome where
  success : Bool
  error : Option String
deriving Repr, DecidableEq

/-! ## Cache file-system model and JsonNewsRepository
(src/infrastructure/repositories.ts) -/

/-- The snapshot mapping id to item, in JS-object insertion order. -/
abbrev Snapshot := List (String × NewsItem)

/-- JS object update `data[k] = v`: replace in place or append. -/
def snapInsert : Snapshot → String → NewsItem → Snapshot
  | [], k, v => [(k, v)]
  | (k0, v0) :: rest, k, v =>
      if k0 = k then (k0, v) :: rest else (k0, v0) :: snapInsert rest k v

def snapContains (s : Snapshot) (k : String) : Bool := s.any (fun p => p.1 = k)

/-- The dictionary built by save: `for (item of items) data[item.id] = item.toDict()`. -/
def serializeItems (items : List NewsItem) : Snapshot :=
  items.foldl (fun m i => snapInsert m i.id i) []

/-- Contents of the live snapshot file: a JSON.parse failure or the parsed
snapshot.  The file being absent is the `none` of the enclosing Option. -/
abbrev CacheFileData := Except Unit Snapshot

instance {ε α : Type} [DecidableEq ε] [DecidableEq α] :
    DecidableEq (Except ε α) := fun x y =>
  match x, y with
  | .error a, .error b =>
      if h : a = b then .isTrue (by rw [h]) else .isFalse (by simp [h])
  | .ok a, .ok b =>
      if h : a = b then .isTrue (by rw [h]) else .isFalse (by simp [h])
  | .error _, .ok _ => .isFalse (by simp)
  | .ok _, .error _ => .isFalse (by simp)

/-- The cache directory owned by the repository: news_cache.json,
news_cache.tmp, and the OS-reported byte size of the live file. -/
structure CacheFs where
  cacheFile : Option CacheFileData
  cacheFileSize : Nat
  tempFile : Option CacheFileData
deriving Repr, DecidableEq

/-- External outcome of the write sequence inside save: both file
operations succeed, writeFileSync throws, or renameSync throws. -/
inductive WriteOutcome
  | ok
  | failWrite
  | failRename
deriving Repr, DecidableEq

/-- JsonNewsRepository.save: write the serialized items to the temp file,
then atomically rename it over the live file; on any error remove the
temp file and return false.  writtenSize is the byte size the OS reports
for the freshly written file. -/
def save (fs : CacheFs) (items : List NewsItem) (w : WriteOutcome)
    (writtenSize : Nat) : Bool × CacheFs :=
  match w with
  | .ok =>
      (true, { cacheFile := some (.ok (serializeItems items)),
               cacheFileSize := writtenSize,
               tempFile := none })
  | .failWrite => (false, { fs with tempFile := none })
  | .failRename => (false, { fs with tempFile := none })

/-- JsonNewsRepository.findAll: empty map when the file is absent; the
catch around readFileSync/JSON.parse also yields an empty map on a
corrupt file. -/
def findAll (fs : CacheFs) : Snapshot :=
  match fs.cacheFile with
  | none => []
  | some (.error _) => []
  | some (.ok snap) => snap

/-- JsonNewsRepository.findNewItems: push each current item whose id is
not in the cached map, in order. -/
def findNewItems (fs : CacheFs) (currentItems : List NewsItem) : List NewsItem :=
  let cachedItems := findAll fs
  currentItems.foldl
    (fun acc item => if snapContains cachedItems item.id then acc else acc ++ [item])
    []

structure RepositoryStats where
  totalItems : Nat
  oldestItem : Option Nat
  newestItem : Option Nat
  cacheSize : Nat
deriving Repr, DecidableEq

/-- JsonNewsRepository.getStats: zero stats for an empty cache; otherwise
JS reduce over the values (first element as seed) for the extreme
crawledAt stamps, and statSync for the file size. -/
def getStats (fs : CacheFs) : RepositoryStats :=
  let cache := findAll fs
  match cache.map (fun p => p.2) with
  | [] => { totalItems := 0, oldestItem := none, newestItem := none, cacheSize := 0 }
  | first :: rest =>
      let oldest := rest.foldl
        (fun acc cur => if cur.crawledAt < acc.crawledAt then cur else acc) first
      let newest := rest.foldl
        (fun acc cur => if cur.crawledAt > acc.crawledAt then cur else acc) first
      let cacheSize := if fs.cacheFile.isSome then fs.cacheFileSize else 0
      { totalItems := cache.length,
        oldestItem := some oldest.crawledAt,
        newestItem := some newest.crawledAt,
        cacheSize := cacheSize }

/-- Process environment as far as the repository reads it. -/
structure EnvState where
  firstRunAfterDeployment : Option String
deriving Repr, DecidableEq

/-- JsonNewsRepository.isFirstRunAfterDeployment: reads the
FIRST_RUN_AFTER_DEPLOYMENT environment variable
(`?.toLowerCase() || 'false'`, so an unset or empty variable becomes
"false") and tests membership in ['true', '1', 'yes']. -/
def isFirstRunAfterDeployment (env : EnvState) : Bool :=
  let firstRun :=
    match env.firstRunAfterDeployment with
    | none => "false"
    | some s => if jsToLowerCase s = "" then "false" else jsToLowerCase s
  ["true", "1", "yes"].contains firstRun

/-- One call of the repository method as a state transition: the method
reads the environment and touches neither the cache directory nor the
environment. -/
def isFirstRunStep (st : CacheFs × EnvState) : Bool × CacheFs × EnvState :=
  (isFirstRunAfterDeployment st.2, st)

/-! ## EmailNotificationService (src/infrastructure/services.ts) -/

structure DeploymentNotificationConfigDTO where
  enabled : Bool
  devEmail : String
deriving Repr, DecidableEq

structure NotificationConfigDTO where
  enabled : Bool
  toEmails : List String
  deploymentNotification : Option DeploymentNotificationConfigDTO
deriving Repr, DecidableEq

/-- Recipient selection inside sendNotification:
`isDevNotification && this.config.deploymentNotification?.enabled`
chooses the single dev address, otherwise the full toEmails list. -/
def recipientsFor (cfg : NotificationConfigDTO) (isDevNotification : Bool) :
    List String :=
  match cfg.deploymentNotification with
  | some d =>
      if isDevNotification && d.enabled then [d.devEmail] else cfg.toEmails
  | none => cfg.toEmails

/-- Audience of one sendNotification call: none when email notifications
are disabled (the method returns a failure without sending), otherwise
the selected recipient list. -/
def sendNotificationAudience (cfg : NotificationConfigDTO)
    (isDevNotification : Bool) : Option (List String) :=
  if cfg.enabled = false then none else some (recipientsFor cfg isDevNotification)

/-! ## NewsMonitoringService.monitorNews (src/domain/services.ts) -/

/-- Arguments handed to NotificationService.sendNotification. -/
structure NotificationRequest where
  title : String
  message : String
  items : List NewsItem
  isDevNotification : Bool
deriving Repr, DecidableEq

def firstRunTitle (n : Nat) : String :=
  "[First run after deployment] News update - Found " ++ toString n ++
    " new messages"

def firstRunMessage (n : Nat) : String :=
  "First execution after system redeployment, found " ++ toString n ++
    " new messages. This is post-deployment initialization, sent only to developers."

def normalTitle (n : Nat) : String :=
  "News update - Found " ++ toString n ++ " new messages"

def normalMessage (n : Nat) : String :=
  "Monitoring system found " ++ toString n ++ " new messages."

/-- JS template interpolation of a possibly-undefined error field. -/
def notifyFailText (e : Option String) : String :=
  "Notification sending failed: " ++ (match e with | some s => s | none => "undefined")

/-- Everything one cycle of the orchestrator produces. -/
structure MonitorOutcome where
  result : CrawlResult
  fs : CacheFs
  notifications : List NotificationRequest
deriving Repr, DecidableEq

/-- NewsMonitoringService.monitorNews.  The crawl result, the fate of the
file writes, the written file size and the notification delivery outcome
are environment inputs; the cache directory state threads through. -/
def monitorNews (env : EnvState) (fs : CacheFs) (crawl : CrawlResult)
    (w : WriteOutcome) (writtenSize : Nat) (notify : NotificationOutcome) :
    MonitorOutcome :=
  let isFirstRun := isFirstRunAfterDeployment env
  if crawl.success = false then
    { result := crawl, fs := fs, notifications := [] }
  else
    let newItems := findNewItems fs crawl.items
    let result := { crawl with newItems := newItems }
    let fs1 := if crawl.items.length > 0 then (save fs crawl.items w writtenSize).2 else fs
    if newItems.length > 0 then
      let title := if isFirstRun then firstRunTitle newItems.length
                   else normalTitle newItems.length
      let message := if isFirstRun then firstRunMessage newItems.length
                     else normalMessage newItems.length
      let req : NotificationRequest :=
        { title := title, message := message, items := newItems,
          isDevNotification := isFirstRun }
      let errors1 := if notify.success then result.errors
                     else result.errors ++ [notifyFailText notify.error]
      { result := { result with errors := errors1 }, fs := fs1,
        notifications := [req] }
    else
      { result := result, fs := fs1, notifications := [] }

/-! ## WebCrawlerService.fetchPageContent retry structure
(src/infrastructure/services.ts)

For a fetch in which every attempt fails we embed the control flow as the
trace of externally visible actions: page-fetch attempts through the
axios client, the diagnostic HEAD request of testHttpsConnection, backoff
waits, and the native HTTPS fallback attempt tried after the client
exhausts its retries for a URL.  A failed client attempt either threw
(network error, timeout — the catch branch runs: diagnostic on the first
attempt, then a backoff sleep before every attempt but the last) or
returned content of at most 1000 characters (every HTTP error status,
since validateStatus accepts all — the loop continues immediately with
no diagnostic and no sleep).  Which failure each attempt suffers is an
environment input. -/

inductive FetchEvent
  | clientAttempt (url : String)
  | diagnosticHead (hostname : String)
  | waitMs (ms : Nat)
  | nativeAttempt (url : String)
deriving Repr, DecidableEq

/-- How one failed client attempt failed: the request threw, or it
resolved with short content (`response.data.length <= 1000`). -/
inductive AttemptFailure
  | threw
  | shortContent
deriving Repr, DecidableEq

def AttemptFailure.isThrew : AttemptFailure → Bool
  | .threw => true
  | .shortContent => false

/-- Events of one failed iteration of the retry loop: the client attempt
itself; then only when it threw, the attempt-0 diagnostic HEAD against
the hostname and, before every attempt but the last, a
2^attempt * 1000 ms backoff sleep (both sit in the catch branch, so a
short-content failure produces neither). -/
def attemptEvents (maxRetries : Nat) (url hostname : String)
    (f : AttemptFailure) (attempt : Nat) : List FetchEvent :=
  FetchEvent.clientAttempt url ::
    match f with
    | .shortContent => []
    | .threw =>
        (if attempt = 0 then [FetchEvent.diagnosticHead hostname] else []) ++
        (if attempt < maxRetries - 1
         then [FetchEvent.waitMs (2 ^ attempt * 1000)] else [])

/-- The inner retry loop for one URL, all maxRetries attempts failing with
the given per-attempt failure modes. -/
def retryLoopEvents (maxRetries : Nat) (url hostname : String)
    (fails : Nat → AttemptFailure) : List FetchEvent :=
  (List.range maxRetries).flatMap (fun attempt =>
    attemptEvents maxRetries url hostname (fails attempt) attempt)

/-- The candidate URL list: the target URL, plus the IP-substituted URL
when DNS failed and the DNS_FALLBACK_ENABLED environment variable is set
to 'true' (TARGET_IP defaulting to 210.241.78.32). -/
def urlsToTry (targetUrl : String) (dnsSuccess : Bool)
    (dnsFallbackEnabled : Bool) (targetIpEnv : Option String) : List String :=
  if !dnsSuccess && dnsFallbackEnabled then
    let targetIp := targetIpEnv.getD "210.241.78.32"
    [targetUrl, targetUrl.replace "www.hpa.gov.tw" targetIp]
  else [targetUrl]

/-- Trace of one fully failed URL: the retry loop followed by one failing
native HTTPS fallback attempt. -/
def fetchUrlTrace (maxRetries : Nat) (url hostname : String)
    (fails : Nat → AttemptFailure) : List FetchEvent :=
  retryLoopEvents maxRetries url hostname fails ++
    [FetchEvent.nativeAttempt url]

/-- Trace of a fetch in which every attempt fails, over all candidate
URLs (hostname extraction and the per-URL, per-attempt failure modes are
environment inputs); the function then returns the empty string. -/
def fetchAllFail (maxRetries : Nat) (urls : List String)
    (hostOf : String → String) (failsOf : String → Nat → AttemptFailure) :
    List FetchEvent × String :=
  (urls.flatMap (fun u => fetchUrlTrace maxRetries u (hostOf u) (failsOf u)), "")

/-- Page-fetch attempts: the axios client requests and the native fallback
request.  The diagnostic HEAD of testHttpsConnection is an extra HTTP
request but not a page-fetch attempt. -/
def isFetchAttempt : FetchEvent → Bool
  | .clientAttempt _ => true
  | .nativeAttempt _ => true
  | _ => false

def isClientAttempt : FetchEvent → Bool
  | .clientAttempt _ => true
  | _ => false

def isNativeAttempt : FetchEvent → Bool
  | .nativeAttempt _ => true
  | _ => false

def isDiagnosticHead : FetchEvent → Bool
  | .diagnosticHead _ => true
  | _ => false

def waitsOf (tr : List FetchEvent) : List Nat :=
  tr.filterMap (fun e => match e with | .waitMs ms => some ms | _ => none)

/-- The attempts after which the loop sleeps: the thrown ones other than
the last. -/
def sleptAttempts (maxRetries : Nat) (fails : Nat → AttemptFailure) :
    List Nat :=
  (List.range maxRetries).filter
    (fun a => (fails a).isThrew && decide (a < maxRetries - 1))

/-- crawl() wraps the fetched HTML: an empty string becomes a failure
CrawlResult carrying the fetch error; otherwise the extracted items (the
extractor output is an external input here) form a success result. -/
def crawlResultOfFetch (html : String) (extracted : List NewsItem)
    (elapsed ts : Nat) : CrawlResult :=
  if html = "" then
    { success := false, items := [], newItems := [],
      errors := ["Failed to fetch page content"],
      executionTime := elapsed, timestamp := ts, isFirstRun := false }
  else
    { success := true, items := extracted, newItems := [], errors := [],
      executionTime := elapsed, timestamp := ts, isFirstRun := false }

/-! ## Helper lemmas -/

lemma foldl_push_eq_filter (cached : Snapshot) :
    ∀ (items acc : List NewsItem),
      items.foldl
        (fun a item => if snapContains cached item.id then a else a ++ [item]) acc
        = acc ++ items.filter (fun i => !snapContains cached i.id)
  | [], acc => by simp
  | x :: xs, acc => by
      by_cases h : snapContains cached x.id
      · simpa [List.foldl_cons, List.filter_cons, h]
          using foldl_push_eq_filter cached xs acc
      · simpa [List.foldl_cons, List.filter_cons, h]
          using foldl_push_eq_filter cached xs (acc ++ [x])

lemma findAll_eq_of_cacheFile_eq {fs1 fs2 : CacheFs}
    (h : fs1.cacheFile = fs2.cacheFile) : findAll fs1 = findAll fs2 := by
  unfold findAll
  rw [h]

/-! ## Claim theorems -/

/-- C5: for every cached snapshot and candidate list, findNewItems returns
exactly the candidates whose id is absent from the snapshot, in candidate
order — the loop that pushes unseen items is the filter of the candidate
list by non-membership in the cache. -/
theorem findNewItems_is_diff (fs : CacheFs) (candidates : List NewsItem) :
    findNewItems fs candidates
      = candidates.filter (fun i => !snapContains (findAll fs) i.id) := by
  unfold findNewItems
  simpa using foldl_push_eq_filter (findAll fs) candidates []

/-- C7: when the crawl fails, monitorNews returns the failure result as is,
leaves the cache directory untouched, and requests no notification. -/
theorem monitorNews_fetch_failure (env : EnvState) (fs : CacheFs)
    (crawl : CrawlResult) (w : WriteOutcome) (sz : Nat)
    (notify : NotificationOutcome) (h : crawl.success = false) :
    monitorNews env fs crawl w sz notify
      = { result := crawl, fs := fs, notifications := [] } := by
  unfold monitorNews
  simp [h]

/-- C7 witness: a concrete failed crawl leaves a concrete non-empty cache
directory unchanged and sends nothing. -/
theorem monitorNews_fetch_failure_witness :
    (⟨false, [], [], ["Failed to fetch page content"], 0, 3, false⟩ :
        CrawlResult).success = false ∧
    monitorNews ⟨none⟩
        ⟨some (.ok [("aaa", ⟨"aaa", "Old", "http://x/old", none, "", 1⟩)]), 10, none⟩
        ⟨false, [], [], ["Failed to fetch page content"], 0, 3, false⟩
        .failWrite 7 ⟨true, none⟩
      = { result := ⟨false, [], [], ["Failed to fetch page content"], 0, 3, false⟩,
          fs := ⟨some (.ok [("aaa", ⟨"aaa", "Old", "http://x/old", none, "", 1⟩)]),
                 10, none⟩,
          notifications := [] } :=
  ⟨rfl,
   monitorNews_fetch_failure ⟨none⟩
     ⟨some (.ok [("aaa", ⟨"aaa", "Old", "http://x/old", none, "", 1⟩)]), 10, none⟩
     ⟨false, [], [], ["Failed to fetch page content"], 0, 3, false⟩
     .failWrite 7 ⟨true, none⟩ rfl⟩

/-- C10: with an empty cache (snapshot file absent, corrupt, or holding an
empty mapping) getStats returns zero totals and no extreme timestamps
instead of failing. -/
theorem getStats_empty_cache (fs : CacheFs)
    (h : fs.cacheFile = none ∨ fs.cacheFile = some (.error ()) ∨
         fs.cacheFile = some (.ok [])) :
    getStats fs
      = { totalItems := 0, oldestItem := none, newestItem := none,
          cacheSize := 0 } := by
  rcases h with h | h | h <;> simp [getStats, findAll, h]

/-- C10 witness: getStats on the three concrete empty-cache shapes. -/
theorem getStats_empty_cache_witness :
    ((⟨none, 0, none⟩ : CacheFs).cacheFile = none ∨
       (⟨none, 0, none⟩ : CacheFs).cacheFile = some (.error ()) ∨
       (⟨none, 0, none⟩ : CacheFs).cacheFile = some (.ok [])) ∧
    getStats ⟨none, 0, none⟩
      = { totalItems := 0, oldestItem := none, newestItem := none,
          cacheSize := 0 } :=
  ⟨Or.inl rfl, getStats_empty_cache ⟨none, 0, none⟩ (Or.inl rfl)⟩

/-- C4: save is atomic with respect to failure — a failed write reports
false, removes the temporary file and leaves the live snapshot byte-for-
byte intact (so a subsequent load returns the pre-write snapshot); a
successful save installs exactly the new serialized set; in every case
the loadable snapshot is either the old state or the new complete
state. -/
theorem save_atomic (fs : CacheFs) (items : List NewsItem) (sz : Nat) :
    (∀ w, w ≠ WriteOutcome.ok →
        (save fs items w sz).1 = false ∧
        (save fs items w sz).2.cacheFile = fs.cacheFile ∧
        (save fs items w sz).2.tempFile = none ∧
        findAll (save fs items w sz).2 = findAll fs) ∧
    ((save fs items .ok sz).1 = true ∧
        findAll (save fs items .ok sz).2 = serializeItems items) ∧
    (∀ w, findAll (save fs items w sz).2 = findAll fs ∨
        findAll (save fs items w sz).2 = serializeItems items) := by
  refine ⟨?_, ⟨rfl, rfl⟩, ?_⟩
  · intro w hw
    cases w with
    | ok => exact absurd rfl hw
    | failWrite => exact ⟨rfl, rfl, rfl, findAll_eq_of_cacheFile_eq rfl⟩
    | failRename => exact ⟨rfl, rfl, rfl, findAll_eq_of_cacheFile_eq rfl⟩
  · intro w
    cases w with
    | ok => exact Or.inr rfl
    | failWrite => exact Or.inl (findAll_eq_of_cacheFile_eq rfl)
    | failRename => exact Or.inl (findAll_eq_of_cacheFile_eq rfl)

/-- C4 witness: a concrete failed write over a concrete prior snapshot
reports failure and leaves the loadable snapshot unchanged. -/
theorem save_atomic_witness :
    (WriteOutcome.failWrite ≠ WriteOutcome.ok) ∧
    (save ⟨some (.ok [("aaa", ⟨"aaa", "Old", "http://x/old", none, "", 1⟩)]), 10,
          some (.error ())⟩
        [⟨"bbb", "New", "http://x/new", none, "", 2⟩] .failWrite 7).1 = false ∧
    (save ⟨some (.ok [("aaa", ⟨"aaa", "Old", "http://x/old", none, "", 1⟩)]), 10,
          some (.error ())⟩
        [⟨"bbb", "New", "http://x/new", none, "", 2⟩] .failWrite 7).2.cacheFile
      = (⟨some (.ok [("aaa", ⟨"aaa", "Old", "http://x/old", none, "", 1⟩)]), 10,
          some (.error ())⟩ : CacheFs).cacheFile ∧
    (save ⟨some (.ok [("aaa", ⟨"aaa", "Old", "http://x/old", none, "", 1⟩)]), 10,
          some (.error ())⟩
        [⟨"bbb", "New", "http://x/new", none, "", 2⟩] .failWrite 7).2.tempFile
      = none ∧
    findAll (save ⟨some (.ok [("aaa", ⟨"aaa", "Old", "http://x/old", none, "", 1⟩)]),
          10, some (.error ())⟩
        [⟨"bbb", "New", "http://x/new", none, "", 2⟩] .failWrite 7).2
      = findAll ⟨some (.ok [("aaa", ⟨"aaa", "Old", "http://x/old", none, "", 1⟩)]),
          10, some (.error ())⟩ := by
  refine ⟨by decide, ?_⟩
  exact (save_atomic
    ⟨some (.ok [("aaa", ⟨"aaa", "Old", "http://x/old", none, "", 1⟩)]), 10,
      some (.error ())⟩
    [⟨"bbb", "New", "http://x/new", none, "", 2⟩] 7).1 .failWrite (by decide)

/-- Sample fixtures used by concrete counterexamples and witnesses. -/
def itemOld : NewsItem := ⟨"aaa", "Old", "http://x/old", none, "", 1⟩

def itemNew : NewsItem := ⟨"bbb", "New", "http://x/new", none, "", 2⟩

def fsOld : CacheFs := ⟨some (.ok [("aaa", itemOld)]), 10, none⟩

def fsEmpty : CacheFs := ⟨none, 0, none⟩

def crawlNew : CrawlResult := ⟨true, [itemNew], [], [], 0, 3, false⟩

def crawlNoItems : CrawlResult := ⟨true, [], [], [], 0, 3, false⟩

/-- C8: a constructed item keeps exactly the validated fields, its preview
is the 200-character truncation of the input, and construction with an
empty id, title or link fails. -/
theorem newsItem_invariant (id title link : String) (date : Option String)
    (preview : String) (t : Nat) :
    (∀ item, NewsItem.make id title link date preview t = .ok item →
        item.id = id ∧ item.title = title ∧ item.link = link ∧
        item.date = date ∧ item.contentPreview = jsSubstringTo preview 200 ∧
        item.contentPreview.length ≤ 200 ∧ item.crawledAt = t) ∧
    (id = "" → ∃ e, NewsItem.make id title link date preview t = .error e) ∧
    (title = "" → ∃ e, NewsItem.make id title link date preview t = .error e) ∧
    (link = "" → ∃ e, NewsItem.make id title link date preview t = .error e) := by
  have hemp : (jsTrim "").length = 0 := rfl
  refine ⟨?_, ?_, ?_, ?_⟩
  · intro item h
    unfold NewsItem.make at h
    by_cases h1 : (jsTrim id).length = 0
    · simp [h1] at h
    · by_cases h2 : (jsTrim title).length = 0
      · simp [h1, h2] at h
      · by_cases h3 : (jsTrim link).length = 0
        · simp [h1, h2, h3] at h
        · simp [h1, h2, h3] at h
          rw [← h]
          refine ⟨rfl, rfl, rfl, rfl, rfl, ?_, rfl⟩
          have hl : (jsSubstringTo preview 200).length
              = (preview.data.take 200).length := rfl
          rw [hl, List.length_take]
          omega
  · intro h
    subst h
    exact ⟨"NewsItem ID cannot be empty", rfl⟩
  · intro h
    subst h
    by_cases h1 : (jsTrim id).length = 0
    · exact ⟨"NewsItem ID cannot be empty", by simp [NewsItem.make, h1]⟩
    · exact ⟨"NewsItem title cannot be empty", by simp [NewsItem.make, h1, hemp]⟩
  · intro h
    subst h
    by_cases h1 : (jsTrim id).length = 0
    · exact ⟨"NewsItem ID cannot be empty", by simp [NewsItem.make, h1]⟩
    · by_cases h2 : (jsTrim title).length = 0
      · exact ⟨"NewsItem title cannot be empty", by simp [NewsItem.make, h1, h2]⟩
      · exact ⟨"NewsItem link cannot be empty", by simp [NewsItem.make, h1, h2, hemp]⟩

/-- C8 witness: a concrete valid construction keeps its fields and bounds
its preview, and a concrete empty-title construction fails. -/
theorem newsItem_invariant_witness :
    (NewsItem.make "x" "T" "L" none "p" 3 = .ok ⟨"x", "T", "L", none, "p", 3⟩) ∧
    ((⟨"x", "T", "L", none, "p", 3⟩ : NewsItem).id = "x" ∧
      (⟨"x", "T", "L", none, "p", 3⟩ : NewsItem).title = "T" ∧
      (⟨"x", "T", "L", none, "p", 3⟩ : NewsItem).link = "L" ∧
      (⟨"x", "T", "L", none, "p", 3⟩ : NewsItem).date = none ∧
      (⟨"x", "T", "L", none, "p", 3⟩ : NewsItem).contentPreview
        = jsSubstringTo "p" 200 ∧
      (⟨"x", "T", "L", none, "p", 3⟩ : NewsItem).contentPreview.length ≤ 200 ∧
      (⟨"x", "T", "L", none, "p", 3⟩ : NewsItem).crawledAt = 3) ∧
    (("" : String) = "" ∧ ∃ e, NewsItem.make "x" "" "L" none "p" 3 = .error e) :=
  ⟨by decide,
   (newsItem_invariant "x" "T" "L" none "p" 3).1 ⟨"x", "T", "L", none, "p", 3⟩
     (by decide),
   rfl, (newsItem_invariant "x" "" "L" none "p" 3).2.2.1 rfl⟩

/-- C2 counterexample: with FIRST_RUN_AFTER_DEPLOYMENT set to "true", a
second call of isFirstRunAfterDeployment still returns true (the claim
requires it to return false after the first call), and no marker is
created in the cache directory. -/
theorem firstRun_counterexample :
    (isFirstRunStep (fsEmpty, ⟨some "true"⟩)).1 = true ∧
    (isFirstRunStep (isFirstRunStep (fsEmpty, ⟨some "true"⟩)).2).1 = true ∧
    (isFirstRunStep (isFirstRunStep (fsEmpty, ⟨some "true"⟩)).2).2.1 = fsEmpty := by
  decide

/-- C2 amended: isFirstRunAfterDeployment is a stateless check of the
FIRST_RUN_AFTER_DEPLOYMENT environment variable — it returns true iff the
variable lowercases to "true", "1" or "yes", mutates neither the cache
directory nor the environment, and therefore every repeated call returns
the same value until the variable is changed externally. -/
theorem firstRun_env_stateless (fs : CacheFs) (env : EnvState) :
    isFirstRunStep (fs, env) = (isFirstRunAfterDeployment env, fs, env) ∧
    (isFirstRunStep (isFirstRunStep (fs, env)).2).1
      = (isFirstRunStep (fs, env)).1 ∧
    isFirstRunAfterDeployment ⟨some "true"⟩ = true ∧
    isFirstRunAfterDeployment ⟨some "TRUE"⟩ = true ∧
    isFirstRunAfterDeployment ⟨some "1"⟩ = true ∧
    isFirstRunAfterDeployment ⟨some "yes"⟩ = true ∧
    isFirstRunAfterDeployment ⟨some ""⟩ = false ∧
    isFirstRunAfterDeployment ⟨some "0"⟩ = false ∧
    isFirstRunAfterDeployment ⟨none⟩ = false :=
  ⟨rfl, rfl, by decide, by decide, by decide, by decide, by decide, by decide,
   by decide⟩

/-- C9: the generated item id is a pure function of title and link alone —
two constructions with the same title and link, at any two times and with
any previews and dates, yield the same id, namely the MD5 hex digest of
`title + link`. -/
theorem newsItem_id_deterministic (title link : String) (d1 d2 : Option String)
    (p1 p2 : String) (t1 t2 : Nat) :
    (NewsItem.create title link d1 p1 t1).map NewsItem.id
      = (NewsItem.create title link d2 p2 t2).map NewsItem.id ∧
    (∀ item, NewsItem.create title link d1 p1 t1 = .ok item →
        item.id = md5Hex (title ++ link)) := by
  unfold NewsItem.create NewsItem.make
  constructor
  · by_cases h1 : (jsTrim (md5Hex (title ++ link))).length = 0 <;>
      by_cases h2 : (jsTrim title).length = 0 <;>
      by_cases h3 : (jsTrim link).length = 0 <;>
      simp [h1, h2, h3, Except.map]
  · intro item h
    by_cases h1 : (jsTrim (md5Hex (title ++ link))).length = 0
    · simp [h1] at h
    · by_cases h2 : (jsTrim title).length = 0
      · simp [h1, h2] at h
      · by_cases h3 : (jsTrim link).length = 0
        · simp [h1, h2, h3] at h
        · simp [h1, h2, h3] at h
          rw [← h]

set_option maxRecDepth 1000000 in
/-- C9 witness: a concrete construction succeeds and its id is the MD5 hex
digest of title + link. -/
theorem newsItem_id_deterministic_witness :
    NewsItem.create "A" "http://x/a" none "" 5
      = .ok ⟨md5Hex ("A" ++ "http://x/a"), "A", "http://x/a", none, "", 5⟩ ∧
    (⟨md5Hex ("A" ++ "http://x/a"), "A", "http://x/a", none, "", 5⟩ :
        NewsItem).id = md5Hex ("A" ++ "http://x/a") :=
  ⟨by decide,
   (newsItem_id_deterministic "A" "http://x/a" none none "" "" 5 5).2
     ⟨md5Hex ("A" ++ "http://x/a"), "A", "http://x/a", none, "", 5⟩ (by decide)⟩

/-- C1 amended: after a successful fetch the orchestrator persists exactly
the freshly crawled candidate set, replacing the snapshot wholesale and
dropping previously known entries that were not re-crawled — and it does
so only when at least one candidate was crawled; with an empty candidate
list no save happens and the cache directory is untouched. -/
theorem monitorNews_persists_crawled_set (env : EnvState) (fs : CacheFs)
    (crawl : CrawlResult) (sz : Nat) (notify : NotificationOutcome)
    (hs : crawl.success = true) :
    (crawl.items ≠ [] →
        findAll (monitorNews env fs crawl .ok sz notify).fs
          = serializeItems crawl.items) ∧
    (∀ w, crawl.items = [] → (monitorNews env fs crawl w sz notify).fs = fs) := by
  constructor
  · intro hi
    have hlen : crawl.items.length > 0 := List.length_pos.mpr hi
    unfold monitorNews
    by_cases hn : (findNewItems fs crawl.items).length > 0 <;>
      simp [hs, hn, hlen, save, findAll]
  · intro w hi
    unfold monitorNews
    simp [hs, hi, findNewItems]

/-- C1 counterexample: a successful crawl over a cache holding item "aaa"
that returns only item "bbb" leaves a snapshot without "aaa" (the claimed
union would retain it), and a successful crawl with zero items over an
absent snapshot file performs no persist at all (the claimed
unconditional persist would create the file). -/
theorem monitorNews_persist_counterexample :
    crawlNew.success = true ∧
    snapContains (findAll fsOld) "aaa" = true ∧
    snapContains
        (findAll (monitorNews ⟨none⟩ fsOld crawlNew .ok 7 ⟨true, none⟩).fs)
        "aaa" = false ∧
    crawlNoItems.success = true ∧
    (monitorNews ⟨none⟩ fsEmpty crawlNoItems .ok 7 ⟨true, none⟩).fs.cacheFile
      = none := by
  decide

/-- C1 witness: the amended persistence behaviour at a concrete input. -/
theorem monitorNews_persists_witness :
    crawlNew.success = true ∧ crawlNew.items ≠ [] ∧
    findAll (monitorNews ⟨none⟩ fsOld crawlNew .ok 7 ⟨true, none⟩).fs
      = serializeItems crawlNew.items :=
  ⟨rfl, by decide,
   (monitorNews_persists_crawled_set ⟨none⟩ fsOld crawlNew 7 ⟨true, none⟩
     rfl).1 (by decide)⟩

lemma countP_flatMap {α β : Type} (p : α → Bool) (f : β → List α) :
    ∀ l : List β, (l.flatMap f).countP p = (l.map (fun b => (f b).countP p)).sum
  | [] => by simp
  | x :: xs => by
      simp [List.flatMap_cons, List.countP_append, countP_flatMap p f xs]

lemma filterMap_flatMap {α β γ : Type} (g : α → Option γ) (f : β → List α) :
    ∀ l : List β,
      (l.flatMap f).filterMap g = l.flatMap (fun b => (f b).filterMap g)
  | [] => by simp
  | x :: xs => by
      simp [List.flatMap_cons, List.filterMap_append, filterMap_flatMap g f xs]

lemma sum_map_const {β : Type} (c : Nat) :
    ∀ l : List β, (l.map (fun _ => c)).sum = l.length * c
  | [] => by simp
  | x :: xs => by simp [sum_map_const c xs, Nat.succ_mul, Nat.add_comm]

lemma flatMap_guard_eq_filter_map {β γ : Type} (p : β → Bool) (g : β → γ) :
    ∀ l : List β,
      l.flatMap (fun a => if p a then [g a] else []) = (l.filter p).map g
  | [] => rfl
  | x :: xs => by
      by_cases h : p x <;>
        simp [List.flatMap_cons, List.filter_cons, h,
          flatMap_guard_eq_filter_map p g xs]

lemma filter_range_lt (k : Nat) :
    (List.range (k + 1)).filter (fun a => decide (a < k)) = List.range k := by
  rw [List.range_succ, List.filter_append]
  have h1 : (List.range k).filter (fun a => decide (a < k)) = List.range k :=
    List.filter_eq_self.mpr (fun a ha => by simp [List.mem_range.mp ha])
  simp [h1]

lemma sum_indicator_head : ∀ m : Nat,
    ((List.range m).map (fun a => if a = 0 then 1 else 0)).sum
      = if m = 0 then 0 else 1
  | 0 => rfl
  | k + 1 => by
      rw [List.range_succ, List.map_append, List.sum_append,
        sum_indicator_head k]
      cases k <;> simp

lemma attempt_countP_client (m : Nat) (u host : String) (f : AttemptFailure)
    (a : Nat) : (attemptEvents m u host f a).countP isClientAttempt = 1 := by
  cases f <;> by_cases h0 : a = 0 <;> by_cases hlt : a < m - 1 <;>
    simp [attemptEvents, h0, hlt, List.countP_cons, List.countP_append,
      isClientAttempt]

lemma attempt_countP_native (m : Nat) (u host : String) (f : AttemptFailure)
    (a : Nat) : (attemptEvents m u host f a).countP isNativeAttempt = 0 := by
  cases f <;> by_cases h0 : a = 0 <;> by_cases hlt : a < m - 1 <;>
    simp [attemptEvents, h0, hlt, List.countP_cons, List.countP_append,
      isNativeAttempt]

lemma attempt_countP_fetch (m : Nat) (u host : String) (f : AttemptFailure)
    (a : Nat) : (attemptEvents m u host f a).countP isFetchAttempt = 1 := by
  cases f <;> by_cases h0 : a = 0 <;> by_cases hlt : a < m - 1 <;>
    simp [attemptEvents, h0, hlt, List.countP_cons, List.countP_append,
      isFetchAttempt]

lemma attempt_countP_diag (m : Nat) (u host : String) (f : AttemptFailure)
    (a : Nat) :
    (attemptEvents m u host f a).countP isDiagnosticHead
      = if f.isThrew && decide (a = 0) then 1 else 0 := by
  cases f <;> by_cases h0 : a = 0 <;> by_cases hlt : a < m - 1 <;>
    simp [attemptEvents, AttemptFailure.isThrew, h0, hlt, List.countP_cons,
      List.countP_append, isDiagnosticHead]

lemma attempt_waits (m : Nat) (u host : String) (f : AttemptFailure)
    (a : Nat) :
    (attemptEvents m u host f a).filterMap
        (fun e => match e with | FetchEvent.waitMs ms => some ms | _ => none)
      = if f.isThrew && decide (a < m - 1) then [2 ^ a * 1000] else [] := by
  cases f with
  | shortContent => simp [attemptEvents, AttemptFailure.isThrew]
  | threw =>
      have hd : (if a = 0 then [FetchEvent.diagnosticHead host]
            else []).filterMap
          (fun e => match e with | FetchEvent.waitMs ms => some ms | _ => none)
          = [] := by
        by_cases h0 : a = 0 <;> simp [h0]
      by_cases hlt : a < m - 1 <;>
        simp [attemptEvents, AttemptFailure.isThrew, List.filterMap_append,
          hd, hlt]

lemma retryLoop_countP_client (m : Nat) (u host : String)
    (fails : Nat → AttemptFailure) :
    (retryLoopEvents m u host fails).countP isClientAttempt = m := by
  unfold retryLoopEvents
  rw [countP_flatMap]
  simp only [attempt_countP_client]
  rw [sum_map_const 1 (List.range m)]
  simp

lemma retryLoop_countP_native (m : Nat) (u host : String)
    (fails : Nat → AttemptFailure) :
    (retryLoopEvents m u host fails).countP isNativeAttempt = 0 := by
  unfold retryLoopEvents
  rw [countP_flatMap]
  simp only [attempt_countP_native]
  rw [sum_map_const 0 (List.range m)]
  simp

lemma retryLoop_countP_fetch (m : Nat) (u host : String)
    (fails : Nat → AttemptFailure) :
    (retryLoopEvents m u host fails).countP isFetchAttempt = m := by
  unfold retryLoopEvents
  rw [countP_flatMap]
  simp only [attempt_countP_fetch]
  rw [sum_map_const 1 (List.range m)]
  simp

lemma retryLoop_waits (m : Nat) (u host : String)
    (fails : Nat → AttemptFailure) :
    waitsOf (retryLoopEvents m u host fails)
      = (sleptAttempts m fails).map (fun a => 2 ^ a * 1000) := by
  unfold waitsOf retryLoopEvents sleptAttempts
  rw [filterMap_flatMap]
  simp only [attempt_waits]
  exact flatMap_guard_eq_filter_map _ _ (List.range m)

lemma retryLoop_countP_diag_threw (m : Nat) (u host : String)
    (fails : Nat → AttemptFailure)
    (hall : ∀ a, fails a = AttemptFailure.threw) :
    (retryLoopEvents m u host fails).countP isDiagnosticHead
      = if m = 0 then 0 else 1 := by
  unfold retryLoopEvents
  rw [countP_flatMap]
  have hper : ∀ a : Nat,
      (attemptEvents m u host (fails a) a).countP isDiagnosticHead
        = if a = 0 then 1 else 0 := by
    intro a
    rw [attempt_countP_diag, hall a]
    by_cases h0 : a = 0 <;> simp [AttemptFailure.isThrew, h0]
  simp only [hper]
  exact sum_indicator_head m

lemma retryLoop_countP_diag_short (m : Nat) (u host : String)
    (fails : Nat → AttemptFailure)
    (hall : ∀ a, fails a = AttemptFailure.shortContent) :
    (retryLoopEvents m u host fails).countP isDiagnosticHead = 0 := by
  unfold retryLoopEvents
  rw [countP_flatMap]
  have hper : ∀ a : Nat,
      (attemptEvents m u host (fails a) a).countP isDiagnosticHead = 0 := by
    intro a
    rw [attempt_countP_diag, hall a]
    simp [AttemptFailure.isThrew]
  simp only [hper]
  rw [sum_map_const 0 (List.range m)]
  simp

/-- C3 amended: per candidate URL, a fetch in which every attempt fails
makes exactly maxRetries page-fetch attempts through the HTTP client plus
one native-HTTPS fallback attempt — maxRetries + 1 per URL and
urls.length * (maxRetries + 1) in total, never exactly maxRetries.  A
backoff sleep of 2^attempt * 1000 ms happens exactly after each thrown
non-final attempt, so consecutive thrown attempts are separated by
doubling delays, while short-content failures (which include every HTTP
error status, since validateStatus accepts all) retry immediately with no
sleep; one diagnostic HEAD request is issued iff the first attempt threw.
The fetch then returns the empty string, which crawl turns into a failure
result rather than a partial success. -/
theorem fetch_retry_structure (m : Nat) (u host : String)
    (fails : Nat → AttemptFailure) :
    ((fetchUrlTrace m u host fails).countP isClientAttempt = m) ∧
    ((fetchUrlTrace m u host fails).countP isNativeAttempt = 1) ∧
    ((fetchUrlTrace m u host fails).countP isFetchAttempt = m + 1) ∧
    (waitsOf (fetchUrlTrace m u host fails)
      = (sleptAttempts m fails).map (fun a => 2 ^ a * 1000)) ∧
    ((∀ a, fails a = AttemptFailure.threw) →
        waitsOf (fetchUrlTrace m u host fails)
          = (List.range (m - 1)).map (fun a => 2 ^ a * 1000) ∧
        (fetchUrlTrace m u host fails).countP isDiagnosticHead
          = if m = 0 then 0 else 1) ∧
    ((∀ a, fails a = AttemptFailure.shortContent) →
        waitsOf (fetchUrlTrace m u host fails) = [] ∧
        (fetchUrlTrace m u host fails).countP isDiagnosticHead = 0) ∧
    (∀ (urls : List String) (hostOf : String → String)
        (failsOf : String → Nat → AttemptFailure),
        (fetchAllFail m urls hostOf failsOf).1.countP isFetchAttempt
          = urls.length * (m + 1)) ∧
    ((fetchAllFail m [u] (fun _ => host) (fun _ => fails)).2 = "") ∧
    (∀ extracted elapsed ts,
        (crawlResultOfFetch
          (fetchAllFail m [u] (fun _ => host) (fun _ => fails)).2
          extracted elapsed ts).success = false) := by
  have hwaits : waitsOf (fetchUrlTrace m u host fails)
      = waitsOf (retryLoopEvents m u host fails) := by
    unfold fetchUrlTrace waitsOf
    rw [List.filterMap_append]
    simp
  have hdiag : (fetchUrlTrace m u host fails).countP isDiagnosticHead
      = (retryLoopEvents m u host fails).countP isDiagnosticHead := by
    unfold fetchUrlTrace
    rw [List.countP_append]
    simp [List.countP_cons, isDiagnosticHead]
  refine ⟨?_, ?_, ?_, ?_, ?_, ?_, ?_, rfl, ?_⟩
  · unfold fetchUrlTrace
    rw [List.countP_append, retryLoop_countP_client]
    simp [List.countP_cons, isClientAttempt]
  · unfold fetchUrlTrace
    rw [List.countP_append, retryLoop_countP_native]
    simp [List.countP_cons, isNativeAttempt]
  · unfold fetchUrlTrace
    rw [List.countP_append, retryLoop_countP_fetch]
    simp [List.countP_cons, isFetchAttempt]
  · rw [hwaits, retryLoop_waits]
  · intro hall
    constructor
    · rw [hwaits, retryLoop_waits]
      have hsl : sleptAttempts m fails
          = (List.range m).filter (fun a => decide (a < m - 1)) :=
        List.filter_congr (fun a _ => by
          rw [hall a]; simp [AttemptFailure.isThrew])
      rw [hsl]
      cases m with
      | zero => simp
      | succ k =>
          have hk : k + 1 - 1 = k := rfl
          rw [hk, filter_range_lt k]
    · rw [hdiag, retryLoop_countP_diag_threw m u host fails hall]
  · intro hall
    constructor
    · rw [hwaits, retryLoop_waits]
      have hsl : sleptAttempts m fails
          = (List.range m).filter (fun _ => false) :=
        List.filter_congr (fun a _ => by
          rw [hall a]; simp [AttemptFailure.isThrew])
      rw [hsl]
      simp
    · rw [hdiag, retryLoop_countP_diag_short m u host fails hall]
  · intro urls hostOf failsOf
    unfold fetchAllFail
    rw [countP_flatMap]
    have hper : ∀ v : String,
        ((fetchUrlTrace m v (hostOf v) (failsOf v)).countP isFetchAttempt)
          = m + 1 := by
      intro v
      unfold fetchUrlTrace
      rw [List.countP_append, retryLoop_countP_fetch]
      simp [List.countP_cons, isFetchAttempt]
    simp only [hper]
    exact sum_map_const (m + 1) urls
  · intro extracted elapsed ts
    rfl

/-- C3 counterexample: with maxRetries = 2 and the single default candidate
URL, a fully failed fetch makes 3 page-fetch HTTP attempts (2 client
attempts plus the native fallback), not exactly 2 as claimed; and when
both attempts fail on short content no backoff wait occurs at all,
refuting backoff between every pair of consecutive attempts. -/
theorem fetch_retry_counterexample :
    (fetchAllFail 2
        (urlsToTry "https://www.hpa.gov.tw/Pages/List.aspx" true false none)
        (fun _ => "www.hpa.gov.tw")
        (fun _ _ => AttemptFailure.threw)).1.countP isFetchAttempt = 3 ∧
    (3 : Nat) ≠ 2 ∧
    waitsOf (fetchUrlTrace 2 "https://www.hpa.gov.tw/Pages/List.aspx"
        "www.hpa.gov.tw" (fun _ => AttemptFailure.shortContent)) = [] ∧
    ([] : List Nat) ≠ [1000] := by
  decide

/-- C3 witness: the amended retry structure at concrete failure scenarios —
three thrown attempts produce the doubling backoff waits and one
diagnostic HEAD; three short-content attempts produce no waits and no
diagnostic. -/
theorem fetch_retry_witness :
    (∀ a : Nat, (fun _ : Nat => AttemptFailure.threw) a
        = AttemptFailure.threw) ∧
    (waitsOf (fetchUrlTrace 3 "u" "h" (fun _ => AttemptFailure.threw))
        = (List.range (3 - 1)).map (fun a => 2 ^ a * 1000) ∧
      (fetchUrlTrace 3 "u" "h" (fun _ => AttemptFailure.threw)).countP
          isDiagnosticHead = if 3 = 0 then 0 else 1) ∧
    (∀ a : Nat, (fun _ : Nat => AttemptFailure.shortContent) a
        = AttemptFailure.shortContent) ∧
    (waitsOf (fetchUrlTrace 3 "u" "h"
        (fun _ => AttemptFailure.shortContent)) = [] ∧
      (fetchUrlTrace 3 "u" "h" (fun _ => AttemptFailure.shortContent)).countP
          isDiagnosticHead = 0) :=
  ⟨fun _ => rfl,
   (fetch_retry_structure 3 "u" "h"
     (fun _ => AttemptFailure.threw)).2.2.2.2.1 (fun _ => rfl),
   fun _ => rfl,
   (fetch_retry_structure 3 "u" "h"
     (fun _ => AttemptFailure.shortContent)).2.2.2.2.2.1 (fun _ => rfl)⟩

/-- C6 amended: every successful cycle with a non-empty newItems list
requests exactly one notification whose dev flag is the first-run flag
and whose title and body are the first-run texts exactly in the first-run
case (the two text pairs never coincide); the email service then
restricts the audience to the single dev recipient only when the dev flag
is set AND deployment notifications are enabled in the configuration —
with them disabled or absent the full recipient list is used even on a
first run. -/
theorem notification_audience (env : EnvState) (fs : CacheFs)
    (crawl : CrawlResult) (w : WriteOutcome) (sz : Nat)
    (notify : NotificationOutcome) (hs : crawl.success = true)
    (hn : findNewItems fs crawl.items ≠ []) :
    ((monitorNews env fs crawl w sz notify).notifications
      = [{ title := if isFirstRunAfterDeployment env
                    then firstRunTitle (findNewItems fs crawl.items).length
                    else normalTitle (findNewItems fs crawl.items).length,
           message := if isFirstRunAfterDeployment env
                      then firstRunMessage (findNewItems fs crawl.items).length
                      else normalMessage (findNewItems fs crawl.items).length,
           items := findNewItems fs crawl.items,
           isDevNotification := isFirstRunAfterDeployment env }]) ∧
    (∀ n, firstRunTitle n ≠ normalTitle n ∧ firstRunMessage n ≠ normalMessage n) ∧
    (∀ cfg d, cfg.enabled = true → cfg.deploymentNotification = some d →
        d.enabled = true →
        sendNotificationAudience cfg true = some [d.devEmail]) ∧
    (∀ cfg d, cfg.enabled = true → cfg.deploymentNotification = some d →
        d.enabled = false →
        sendNotificationAudience cfg true = some cfg.toEmails) ∧
    (∀ cfg, cfg.enabled = true → cfg.deploymentNotification = none →
        sendNotificationAudience cfg true = some cfg.toEmails) ∧
    (∀ cfg, cfg.enabled = true →
        sendNotificationAudience cfg false = some cfg.toEmails) := by
  have hlen : (findNewItems fs crawl.items).length > 0 := List.length_pos.mpr hn
  refine ⟨?_, ?_, ?_, ?_, ?_, ?_⟩
  · unfold monitorNews
    by_cases hf : isFirstRunAfterDeployment env <;>
      by_cases hns : notify.success <;>
      simp [hs, hlen, hf, hns]
  · intro n
    have e1 : ("[First run after deployment] News update - Found " :
        String).length = 49 := by decide
    have e2 : ("News update - Found " : String).length = 20 := by decide
    have e3 : (" new messages" : String).length = 13 := by decide
    have e4 : ("First execution after system redeployment, found " :
        String).length = 49 := by decide
    have e5 : ((" new messages. This is post-deployment initialization, " ++
        "sent only to developers." : String)).length = 79 := by decide
    have e6 : ("Monitoring system found " : String).length = 24 := by decide
    have e7 : (" new messages." : String).length = 14 := by decide
    constructor
    · intro hcontra
      have hlencontra := congrArg String.length hcontra
      unfold firstRunTitle normalTitle at hlencontra
      rw [String.length_append, String.length_append, String.length_append,
        String.length_append, e1, e2, e3] at hlencontra
      omega
    · intro hcontra
      have hlencontra := congrArg String.length hcontra
      unfold firstRunMessage normalMessage at hlencontra
      rw [String.length_append, String.length_append, String.length_append,
        String.length_append, e4, e6, e7] at hlencontra
      have e5a : (" new messages. This is post-deployment initialization, sent only to developers." : String).length = 79 := by decide
      rw [e5a] at hlencontra
      omega
  · intro cfg d h1 h2 h3
    simp [sendNotificationAudience, recipientsFor, h1, h2, h3]
  · intro cfg d h1 h2 h3
    simp [sendNotificationAudience, recipientsFor, h1, h2, h3]
  · intro cfg h1 h2
    simp [sendNotificationAudience, recipientsFor, h1, h2]
  · intro cfg h1
    unfold sendNotificationAudience recipientsFor
    cases hdep : cfg.deploymentNotification <;> simp [h1, hdep]

/-- C6 counterexample: on a first-run cycle the single notification request
carries the dev flag, yet with deployment notifications disabled in the
email configuration the service sends it to the full recipient list — the
audience is not picked by the first-run flag alone. -/
theorem notification_audience_counterexample :
    (monitorNews ⟨some "true"⟩ fsEmpty crawlNew .ok 7 ⟨true, none⟩).notifications.map
        (fun r => r.isDevNotification) = [true] ∧
    sendNotificationAudience ⟨true, ["a@x", "b@x"], some ⟨false, "dev@x"⟩⟩ true
      = some ["a@x", "b@x"] ∧
    (["a@x", "b@x"] : List String) ≠ ["dev@x"] := by
  decide

/-- C6 witness: the amended notification behaviour at a concrete
first-run cycle. -/
theorem notification_audience_witness :
    crawlNew.success = true ∧ findNewItems fsEmpty crawlNew.items ≠ [] ∧
    ((monitorNews ⟨some "true"⟩ fsEmpty crawlNew .ok 7 ⟨true, none⟩).notifications
      = [{ title := if isFirstRunAfterDeployment ⟨some "true"⟩
                    then firstRunTitle (findNewItems fsEmpty crawlNew.items).length
                    else normalTitle (findNewItems fsEmpty crawlNew.items).length,
           message := if isFirstRunAfterDeployment ⟨some "true"⟩
                      then firstRunMessage
                        (findNewItems fsEmpty crawlNew.items).length
                      else normalMessage
                        (findNewItems fsEmpty crawlNew.items).length,
           items := findNewItems fsEmpty crawlNew.items,
           isDevNotification := isFirstRunAfterDeployment ⟨some "true"⟩ }]) ∧
    (∀ cfg d, cfg.enabled = true → cfg.deploymentNotification = some d →
        d.enabled = true →
        sendNotificationAudience cfg true = some [d.devEmail]) :=
  ⟨rfl, by decide,
   (notification_audience ⟨some "true"⟩ fsEmpty crawlNew .ok 7 ⟨true, none⟩
       rfl (by decide)).1,
   (notification_audience ⟨some "true"⟩ fsEmpty crawlNew .ok 7 ⟨true, none⟩
       rfl (by decide)).2.2.1⟩

end NewsAlert
